import Mathlib

/-! # lab01: postal code to temperature handler

A shallow embedding of `main.go` (the `HandlerCep` request handler, the two upstream
clients `CepAwesomeapi` and `WeatherApi`, and the temperature conversion), together with
the parts of the Go runtime the handler relies on: `float64` arithmetic (IEEE-754 binary64,
round to nearest even), `encoding/json` output of the two response shapes, and the
`http.ResponseWriter` protocol as recorded by `httptest.ResponseRecorder`.

Go strings are modelled by `String` (the Go strings that are valid UTF-8); Go's `len(s)` is
the number of bytes of the UTF-8 encoding, `String.utf8ByteSize`, while `String.length`
counts characters.

The network, `http.NewRequest`, `http.DefaultClient.Do`, `io.ReadAll` and `json.Unmarshal`
are not part of the program: their outcomes are the fields of an environment `Env`, and the
theorems about `HandlerCep` hold for every environment.
-/

namespace Lab01

/-! ## float64 -/

/-- A Go `float64` value. `finite neg mant exp` denotes `(-1)^neg * mant * 2^exp`; values
produced by `Float64.round` are canonical (`mant < 2^53`, `-1074 ≤ exp ≤ 971`, and
`exp = -1074` whenever `mant < 2^52`), so that equal numbers have equal representations
(apart from the two zeros). -/
inductive Float64 where
  | finite (neg : Bool) (mant : Nat) (exp : Int)
  | inf (neg : Bool)
  | nan
  deriving DecidableEq, Repr

/-- The quotient `num / den` rounded to the nearest natural number, ties to even. -/
def divRoundEven (num den : Nat) : Nat :=
  let q := num / den
  let r := num % den
  if 2 * r < den then q
  else if den < 2 * r then q + 1
  else if q % 2 = 0 then q else q + 1

/-- Counts the binary digits of `n` on top of `acc`, 64 at a time while possible. -/
def bitLengthAux : Nat → Nat → Nat → Nat
  | 0, _, acc => acc
  | fuel + 1, n, acc =>
    if n = 0 then acc
    else if 2 ^ 64 ≤ n then bitLengthAux fuel (n / 2 ^ 64) (acc + 64)
    else bitLengthAux fuel (n / 2) (acc + 1)

/-- The number of binary digits of `n` (`0` for `n = 0`), as Go's `bits.Len`. -/
def bitLength (n : Nat) : Nat := bitLengthAux n n 0

/-- The integer `floor (log2 (num / den))`, for positive `num` and `den`. -/
def ilog2Ratio (num den : Nat) : Int :=
  let l : Int := (bitLength num : Int) - (bitLength den : Int)
  if 0 ≤ l then
    (if den * 2 ^ l.toNat ≤ num then l else l - 1)
  else
    (if den ≤ num * 2 ^ (-l).toNat then l else l - 1)

/-- Rounding of the non-negative rational `num / den` (with sign `neg`) to binary64, round to
nearest, ties to even; overflow gives an infinity, underflow a subnormal or zero. -/
def Float64.round (neg : Bool) (num den : Nat) : Float64 :=
  if num = 0 then .finite neg 0 (-1074)
  else
    let p := ilog2Ratio num den
    let e : Int := max (p - 52) (-1074)
    let m :=
      if 0 ≤ e then divRoundEven num (den * 2 ^ e.toNat)
      else divRoundEven (num * 2 ^ (-e).toNat) den
    let m1 := if m = 2 ^ 53 then 2 ^ 52 else m
    let e1 := if m = 2 ^ 53 then e + 1 else e
    if 971 < e1 then .inf neg else .finite neg m1 e1

/-- Rounding of the dyadic number `mant * 2^exp`. -/
def Float64.roundDyadic (neg : Bool) (mant : Nat) (exp : Int) : Float64 :=
  if 0 ≤ exp then Float64.round neg (mant * 2 ^ exp.toNat) 1
  else Float64.round neg mant (2 ^ (-exp).toNat)

/-- The float64 nearest to the decimal `digits * 10^exp10`: the value of a Go numeric
constant converted to `float64`, and of `strconv.ParseFloat` when it does not overflow. -/
def Float64.ofDecimal (neg : Bool) (digits : Nat) (exp10 : Int) : Float64 :=
  if 0 ≤ exp10 then Float64.round neg (digits * 10 ^ exp10.toNat) 1
  else Float64.round neg digits (10 ^ (-exp10).toNat)

/-- The signed integer `± mant * 2^(exp - base)`, for `base ≤ exp`. -/
def signedAt (neg : Bool) (mant : Nat) (exp base : Int) : Int :=
  let v : Int := ((mant * 2 ^ (exp - base).toNat : Nat) : Int)
  if neg then -v else v

/-- The correctly rounded sum of two dyadic numbers. An exact zero sum is `+0`, except that
the sum of two negative zeros is `-0`. -/
def Float64.roundSum (n1 : Bool) (m1 : Nat) (e1 : Int) (n2 : Bool) (m2 : Nat) (e2 : Int) :
    Float64 :=
  let base := min e1 e2
  let s : Int := signedAt n1 m1 e1 base + signedAt n2 m2 e2 base
  if s = 0 then .finite (n1 && n2) 0 (-1074)
  else Float64.roundDyadic (decide (s < 0)) s.natAbs base

/-- Go's `x + y` on `float64`. -/
def Float64.add : Float64 → Float64 → Float64
  | .finite n1 m1 e1, .finite n2 m2 e2 => Float64.roundSum n1 m1 e1 n2 m2 e2
  | .nan, _ => .nan
  | _, .nan => .nan
  | .inf n1, .inf n2 => if n1 = n2 then .inf n1 else .nan
  | .inf n1, .finite _ _ _ => .inf n1
  | .finite _ _ _, .inf n2 => .inf n2

/-- Go's `x * y` on `float64`. -/
def Float64.mul : Float64 → Float64 → Float64
  | .finite n1 m1 e1, .finite n2 m2 e2 => Float64.roundDyadic (n1 != n2) (m1 * m2) (e1 + e2)
  | .nan, _ => .nan
  | _, .nan => .nan
  | .inf n1, .inf n2 => .inf (n1 != n2)
  | .inf n1, .finite n2 m2 _ => if m2 = 0 then .nan else .inf (n1 != n2)
  | .finite n1 m1 _, .inf n2 => if m1 = 0 then .nan else .inf (n1 != n2)

/-- The fused multiply-add `x * y + z` with a single rounding. -/
def Float64.fma : Float64 → Float64 → Float64 → Float64
  | .finite n1 m1 e1, .finite n2 m2 e2, .finite n3 m3 e3 =>
      Float64.roundSum (n1 != n2) (m1 * m2) (e1 + e2) n3 m3 e3
  | .finite _ _ _, .finite _ _ _, z => z
  | x, y, z => Float64.add (Float64.mul x y) z

/-- Go's `x*y + z`. The language specification lets an implementation fuse the two operations
into one with a single rounding (as the arm64, ppc64 and s390x back ends do); `fused` selects
that behaviour. -/
def Float64.mulAdd (fused : Bool) (x y z : Float64) : Float64 :=
  if fused then Float64.fma x y z else Float64.add (Float64.mul x y) z

/-- Whether the value is neither an infinity nor a NaN. -/
def Float64.isFinite : Float64 → Bool
  | .finite _ _ _ => true
  | _ => false

/-- The rational value of a finite float64 (`0` for the infinities and NaN). -/
def Float64.toRat : Float64 → ℚ
  | .finite neg mant exp => (if neg then -1 else 1) * (mant : ℚ) * (2 : ℚ) ^ exp
  | _ => 0

/-- Whether `|x| < |y|`, for finite `x` and `y`. -/
def Float64.absLt : Float64 → Float64 → Bool
  | .finite _ m1 e1, .finite _ m2 e2 =>
    let base := min e1 e2
    decide (m1 * 2 ^ (e1 - base).toNat < m2 * 2 ^ (e2 - base).toNat)
  | _, _ => false

/-! ## Decimal output of float64 (`strconv.AppendFloat` with precision `-1`) -/

/-- Decimal digits of `n`, most significant first, in front of `acc`. -/
def natDigitsAux : Nat → Nat → List Char → List Char
  | 0, _, acc => acc
  | fuel + 1, n, acc =>
    let acc1 := Char.ofNat (48 + n % 10) :: acc
    if n / 10 = 0 then acc1 else natDigitsAux fuel (n / 10) acc1

/-- Decimal digits of `n`, most significant first (`"0"` for zero). -/
def natDigits (n : Nat) : List Char := natDigitsAux (n + 1) n []

/-- Whether `10^k ≤ num / den`. -/
def pow10Le (k : Int) (num den : Nat) : Bool :=
  if 0 ≤ k then decide (10 ^ k.toNat * den ≤ num) else decide (den ≤ num * 10 ^ (-k).toNat)

/-- The integer `floor (log10 (num / den))`, for positive `num` and `den`: the estimate taken
from the binary logarithm is off by at most one and is then adjusted. -/
def ilog10Ratio (num den : Nat) : Int :=
  let p := ilog2Ratio num den
  let k0 : Int :=
    if 0 ≤ p then ((p.toNat * 30103 / 100000 : Nat) : Int)
    else -((((-p).toNat * 30103 + 99999) / 100000 : Nat) : Int)
  if pow10Le (k0 + 1) num den then k0 + 1
  else if pow10Le k0 num den then k0
  else k0 - 1

/-- The positive rational `num / den` at the decimal scale `s`: the triple `(q, r, D)` with
`num / den = (q + r / D) * 10^s` and `r < D`. -/
def scaleDecimal (s : Int) (num den : Nat) : Nat × Nat × Nat :=
  if 0 ≤ s then
    (num / (den * 10 ^ s.toNat), num % (den * 10 ^ s.toNat), den * 10 ^ s.toNat)
  else
    (num * 10 ^ (-s).toNat / den, num * 10 ^ (-s).toNat % den, den)

/-- Whether the decimal `d * 10^s` reads back (`strconv.ParseFloat`) as the positive float64
`mant * 2^exp`. -/
def readsBack (mant : Nat) (exp : Int) (d : Nat) (s : Int) : Bool :=
  decide (Float64.ofDecimal false d s = Float64.finite false mant exp)

/-- The decimal of `n` significant digits that `strconv` prints for the positive float64
`mant * 2^exp`, when there is one: of the two `n`-digit decimals next to the value (below
and above it), those that read back as the value are admissible, and of two admissible ones
the nearer is taken (the even one when they are equally near). The result `(d, s)` stands for
`d * 10^s`; a decimal above the value that reaches the next power of ten is written with the
single digit `1`. -/
def shortestAt (n : Nat) (mant : Nat) (exp : Int) : Option (Nat × Int) :=
  let num := if 0 ≤ exp then mant * 2 ^ exp.toNat else mant
  let den := if 0 ≤ exp then 1 else 2 ^ (-exp).toNat
  let s : Int := ilog10Ratio num den - (n : Int) + 1
  let q := (scaleDecimal s num den).1
  let r := (scaleDecimal s num den).2.1
  let D := (scaleDecimal s num den).2.2
  let below : Nat × Int := (q, s)
  let above : Nat × Int :=
    if r = 0 then (q, s) else if q + 1 = 10 ^ n then (1, s + (n : Int)) else (q + 1, s)
  let okBelow := readsBack mant exp below.1 below.2
  let okAbove := readsBack mant exp above.1 above.2
  if okBelow && okAbove then
    (if 2 * r < D then some below
     else if D < 2 * r then some above
     else if q % 2 = 0 then some below else some above)
  else if okBelow then some below
  else if okAbove then some above
  else none

/-- Searches the digit counts `n, n+1, ...` for the first that has an admissible decimal. -/
def shortestSearch : Nat → Nat → Nat → Int → Option (Nat × Int)
  | 0, _, _, _ => none
  | fuel + 1, n, mant, exp =>
    match shortestAt n mant exp with
    | some r => some r
    | none => shortestSearch fuel (n + 1) mant exp

/-- The exact decimal expansion of `mant * 2^exp`. -/
def exactDecimal (mant : Nat) (exp : Int) : Nat × Int :=
  if 0 ≤ exp then (mant * 2 ^ exp.toNat, 0) else (mant * 5 ^ (-exp).toNat, exp)

/-- The shortest decimal `d * 10^s` that reads back as the positive float64 `mant * 2^exp`,
nearest to it among the shortest (`strconv.FormatFloat` with precision `-1`). The search
succeeds only for the canonical representation of a float64 (the one `Float64.round` gives);
any other representation `mant * 2^exp` is first brought to the canonical form of the
float64 nearest to it. The exact expansion stands in where that float64 is zero or
infinite, which no float64 value meets. -/
def shortestDecimal (mant : Nat) (exp : Int) : Nat × Int :=
  match shortestSearch 17 1 mant exp with
  | some r => r
  | none =>
    match Float64.roundDyadic false mant exp with
    | .finite _ m e =>
      if m = 0 then exactDecimal mant exp
      else
        (match shortestSearch 17 1 m e with
         | some r => r
         | none => exactDecimal mant exp)
    | _ => exactDecimal mant exp

/-- Format `%e` of the decimal with digit list `ds` and exponent `k`: `d.ddde±XX`, the
exponent with at least two digits. -/
def fmtE (ds : List Char) (k : Int) : List Char :=
  let mantissa :=
    match ds with
    | [] => []
    | [d] => [d]
    | d :: rest => d :: '.' :: rest
  let es := natDigits k.natAbs
  let es2 := if es.length < 2 then '0' :: es else es
  mantissa ++ ('e' :: (if k < 0 then '-' else '+') :: es2)

/-- Format `%f` of the decimal with digit list `ds` and exponent `k`. -/
def fmtF (ds : List Char) (k : Int) : List Char :=
  if k < 0 then
    '0' :: '.' :: (List.replicate ((-k).toNat - 1) '0' ++ ds)
  else if ds.length ≤ k.toNat + 1 then
    ds ++ List.replicate (k.toNat + 1 - ds.length) '0'
  else
    ds.take (k.toNat + 1) ++ ('.' :: ds.drop (k.toNat + 1))

/-- The clean-up `encoding/json` applies to `%e` output: `e-09` becomes `e-9`. -/
def cleanExponent (b : List Char) : List Char :=
  match b.reverse with
  | d :: z :: sg :: e :: rest =>
    if e = 'e' ∧ (sg = '-' ∨ sg = '+') ∧ z = '0' then (d :: sg :: e :: rest).reverse else b
  | _ => b

/-- The text `encoding/json` writes for a finite float64 (`floatEncoder`): the shortest
decimal that reads back as the same value, in `%f` form, or in `%e` form when the magnitude
is below `1e-6` or at least `1e21`. -/
def formatFloat : Float64 → List Char
  | .finite neg mant exp =>
    let sign := if neg then ['-'] else []
    if mant = 0 then sign ++ ['0']
    else
      let r := shortestDecimal mant exp
      let ds := natDigits r.1
      let k : Int := r.2 + (ds.length : Int) - 1
      let x := Float64.finite false mant exp
      if x.absLt (Float64.ofDecimal false 1 (-6)) || !(x.absLt (Float64.ofDecimal false 1 21)) then
        sign ++ cleanExponent (fmtE ds k)
      else sign ++ fmtF ds k
  | _ => []

/-! ## JSON text -/

/-- The double quote character. -/
def chQuote : Char := Char.ofNat 34

/-- The backslash character. -/
def chBackslash : Char := Char.ofNat 92

/-- The opening brace. -/
def chLBrace : Char := Char.ofNat 123

/-- The closing brace. -/
def chRBrace : Char := Char.ofNat 125

/-- Lower-case hexadecimal digit of `n < 16`. -/
def hexDigit (n : Nat) : Char :=
  if n < 10 then Char.ofNat (48 + n) else Char.ofNat (87 + n)

/-- The escape `\uXXXX` of a code point below `0x10000`. -/
def unicodeEscape (n : Nat) : List Char :=
  [chBackslash, 'u', hexDigit (n / 4096 % 16), hexDigit (n / 256 % 16), hexDigit (n / 16 % 16),
    hexDigit (n % 16)]

/-- How `encoding/json` writes one character of a string, with HTML escaping on (the default
of `json.Encoder`); backspace and form feed have had their short forms since Go 1.22. -/
def escapeChar (c : Char) : List Char :=
  if c = chQuote then [chBackslash, chQuote]
  else if c = chBackslash then [chBackslash, chBackslash]
  else if c.toNat = 8 then [chBackslash, 'b']
  else if c.toNat = 12 then [chBackslash, 'f']
  else if c.toNat = 10 then [chBackslash, 'n']
  else if c.toNat = 13 then [chBackslash, 'r']
  else if c.toNat = 9 then [chBackslash, 't']
  else if c.toNat < 32 ∨ c = '<' ∨ c = '>' ∨ c = '&' ∨ c.toNat = 8232 ∨ c.toNat = 8233 then
    unicodeEscape c.toNat
  else [c]

/-- A Go string as a JSON string literal. -/
def jsonQuote (s : String) : List Char :=
  chQuote :: (s.toList.flatMap escapeChar ++ [chQuote])

/-- The bytes `json.NewEncoder(w).Encode(map[string]string{"error": msg})` writes: the object
followed by the newline `Encode` appends. -/
def encodeErrorMap (msg : String) : String :=
  String.mk (chLBrace :: (jsonQuote "error" ++ (':' :: (jsonQuote msg ++ [chRBrace, '\n']))))

/-- Drops leading JSON whitespace. -/
def skipWs : List Char → List Char
  | [] => []
  | c :: cs => if c = ' ' ∨ c = '\n' ∨ c = '\t' ∨ c = '\r' then skipWs cs else c :: cs

/-- Whether `c` is a hexadecimal digit. -/
def isHexChar (c : Char) : Bool :=
  (48 ≤ c.toNat && c.toNat ≤ 57) || (97 ≤ c.toNat && c.toNat ≤ 102) ||
    (65 ≤ c.toNat && c.toNat ≤ 70)

/-- Whether `c` is a decimal digit. -/
def isDigitChar (c : Char) : Bool := 48 ≤ c.toNat && c.toNat ≤ 57

/-- Scans the rest of a JSON string literal after its opening quote and returns what follows
the closing quote. -/
def scanString : Nat → List Char → Option (List Char)
  | 0, _ => none
  | _ + 1, [] => none
  | fuel + 1, c :: cs =>
    if c = chQuote then some cs
    else if c = chBackslash then
      match cs with
      | [] => none
      | e :: cs1 =>
        if e = 'u' then
          match cs1 with
          | h1 :: h2 :: h3 :: h4 :: cs2 =>
            if isHexChar h1 && isHexChar h2 && isHexChar h3 && isHexChar h4 then
              scanString fuel cs2
            else none
          | _ => none
        else if e = chQuote ∨ e = chBackslash ∨ e = '/' ∨ e = 'b' ∨ e = 'f' ∨ e = 'n' ∨ e = 'r'
            ∨ e = 't' then
          scanString fuel cs1
        else none
    else if c.toNat < 32 then none
    else scanString fuel cs

/-- Drops leading decimal digits. -/
def dropDigits : List Char → List Char
  | [] => []
  | c :: cs => if isDigitChar c then dropDigits cs else c :: cs

/-- Scans one or more decimal digits. -/
def scanDigits1 : List Char → Option (List Char)
  | [] => none
  | c :: cs => if isDigitChar c then some (dropDigits cs) else none

/-- Scans the optional exponent part of a JSON number. -/
def scanExponent : List Char → Option (List Char)
  | [] => some []
  | c :: cs =>
    if c = 'e' ∨ c = 'E' then
      match cs with
      | [] => none
      | sg :: cs1 => if sg = '+' ∨ sg = '-' then scanDigits1 cs1 else scanDigits1 (sg :: cs1)
    else some (c :: cs)

/-- Scans the optional fraction part of a JSON number, then the exponent. -/
def scanFraction : List Char → Option (List Char)
  | [] => some []
  | c :: cs =>
    if c = '.' then
      match scanDigits1 cs with
      | none => none
      | some r => scanExponent r
    else scanExponent (c :: cs)

/-- Scans the integer part of a JSON number (no leading zero before other digits). -/
def scanInteger : List Char → Option (List Char)
  | [] => none
  | c :: cs =>
    if c = '0' then scanFraction cs
    else if isDigitChar c then scanFraction (dropDigits cs)
    else none

/-- Scans a JSON number. -/
def scanNumber : List Char → Option (List Char)
  | [] => none
  | c :: cs => if c = '-' then scanInteger cs else scanInteger (c :: cs)

/-- Drops the literal `lit` from the front of the input. -/
def scanLiteral (lit : List Char) (cs : List Char) : Option (List Char) :=
  if lit.isPrefixOf cs then some (cs.drop lit.length) else none

mutual
/-- Scans one JSON value (leading whitespace allowed) and returns the remaining input. -/
def scanValue : Nat → List Char → Option (List Char)
  | 0, _ => none
  | fuel + 1, cs =>
    match skipWs cs with
    | [] => none
    | c :: rest =>
      if c = chLBrace then
        match skipWs rest with
        | [] => none
        | d :: rest1 => if d = chRBrace then some rest1 else scanMembers fuel (d :: rest1)
      else if c = '[' then
        match skipWs rest with
        | [] => none
        | d :: rest1 => if d = ']' then some rest1 else scanElements fuel (d :: rest1)
      else if c = chQuote then scanString (rest.length + 1) rest
      else if c = 't' then scanLiteral "true".toList (c :: rest)
      else if c = 'f' then scanLiteral "false".toList (c :: rest)
      else if c = 'n' then scanLiteral "null".toList (c :: rest)
      else scanNumber (c :: rest)
/-- Scans the members of a JSON object up to and including its closing brace. -/
def scanMembers : Nat → List Char → Option (List Char)
  | 0, _ => none
  | fuel + 1, cs =>
    match skipWs cs with
    | [] => none
    | c :: rest =>
      if c = chQuote then
        match scanString (rest.length + 1) rest with
        | none => none
        | some r1 =>
          match skipWs r1 with
          | [] => none
          | colon :: r2 =>
            if colon = ':' then
              match scanValue fuel r2 with
              | none => none
              | some r3 =>
                match skipWs r3 with
                | [] => none
                | d :: r4 =>
                  if d = ',' then scanMembers fuel r4
                  else if d = chRBrace then some r4
                  else none
            else none
      else none
/-- Scans the elements of a JSON array up to and including its closing bracket. -/
def scanElements : Nat → List Char → Option (List Char)
  | 0, _ => none
  | fuel + 1, cs =>
    match scanValue fuel cs with
    | none => none
    | some r1 =>
      match skipWs r1 with
      | [] => none
      | d :: r2 =>
        if d = ',' then scanElements fuel r2
        else if d = ']' then some r2
        else none
end

/-- Whether the text is one JSON value surrounded by optional whitespace, the condition under
which `json.Unmarshal(body, &v)` with `v interface{}` succeeds. The empty text is not. -/
def validJSON (s : String) : Bool :=
  match scanValue (s.length + 1) s.toList with
  | none => false
  | some rest => (skipWs rest).isEmpty

/-! ## Reading a number text (`json.Unmarshal` into a `float64`) -/

/-- The postal record decoded from the lookup service. -/
structure CepAwesomeapiResponse where
  Cep : String
  AddressType : String
  AddressName : String
  Address : String
  State : String
  District : String
  Latitude : String
  Longitude : String
  City : String
  Ibge : String
  Ddd : String
  deriving DecidableEq, Repr

/-- The `current_units` object of the weather record. -/
structure CurrentUnits where
  Time : String
  Interval : String
  Temperature2M : String
  deriving DecidableEq, Repr

/-- The `current` object of the weather record. -/
structure Current where
  Time : String
  Interval : Int
  Temperature2M : Float64
  deriving DecidableEq, Repr

/-- The weather record decoded from the weather service. -/
structure WeatherApiResponse where
  Latitude : Float64
  Longitude : Float64
  GenerationtimeMs : Float64
  UtcOffsetSeconds : Int
  Timezone : String
  TimezoneAbbreviation : String
  Elevation : Float64
  CurrentUnits : CurrentUnits
  Current : Current
  deriving DecidableEq, Repr

/-- The response payload. -/
structure Temperature where
  TempC : Float64
  TempF : Float64
  TempK : Float64
  deriving DecidableEq, Repr

/-- The zero value of `CepAwesomeapiResponse` (what `var v CepAwesomeapiResponse` holds). -/
def CepAwesomeapiResponse.zero : CepAwesomeapiResponse :=
  { Cep := "", AddressType := "", AddressName := "", Address := "", State := "",
    District := "", Latitude := "", Longitude := "", City := "", Ibge := "", Ddd := "" }

/-- The float64 zero value. -/
def Float64.zero : Float64 := .finite false 0 (-1074)

/-- The zero value of `WeatherApiResponse`. -/
def WeatherApiResponse.zero : WeatherApiResponse :=
  { Latitude := Float64.zero, Longitude := Float64.zero, GenerationtimeMs := Float64.zero,
    UtcOffsetSeconds := 0, Timezone := "", TimezoneAbbreviation := "",
    Elevation := Float64.zero,
    CurrentUnits := { Time := "", Interval := "", Temperature2M := "" },
    Current := { Time := "", Interval := 0, Temperature2M := Float64.zero } }

/-! ## The environment of one request -/

deriving instance DecidableEq for Except

/-- What `http.DefaultClient.Do` hands back when the exchange completes: the status code of
the upstream answer and the outcome of `io.ReadAll(resp.Body)` (the body text, or the read
error). -/
structure HttpResponse where
  StatusCode : Nat
  Body : Except String String
  deriving DecidableEq

/-- Everything outside `main.go` that one run of the handler depends on. Go `error` values are
represented by their message.
* `newRequest url` is the outcome of `http.NewRequest("GET", url, nil)` (it fails when the URL
  does not parse);
* `clientDo url` is the outcome of `http.DefaultClient.Do` on that request: a transport
  failure (connection refused, timeout, ...) or a response;
* `unmarshalCep body` and `unmarshalWeather body` are the outcomes of `json.Unmarshal` of a
  body into the two record types;
* `fusedMulAdd` tells whether the compiler fuses `x*y + z` on the target architecture. -/
structure Env where
  newRequest : String → Except String Unit
  clientDo : String → Except String HttpResponse
  unmarshalCep : String → Except String CepAwesomeapiResponse
  unmarshalWeather : String → Except String WeatherApiResponse
  fusedMulAdd : Bool

/-- Observable steps of a run, in order. -/
inductive Event where
  | callCepAwesomeapi (cep : String)
  | callWeatherApi (latitude longitude : String)
  | newRequest (url : String)
  | clientDo (url : String)
  deriving DecidableEq, Repr

/-- Whether the event is a call of the weather client. -/
def Event.isWeatherCall : Event → Bool
  | .callWeatherApi _ _ => true
  | _ => false

/-- The state of an `http.ResponseWriter` as `httptest.ResponseRecorder` records it: the
status is 200 until `WriteHeader` is called, and only the first `WriteHeader` counts. -/
structure ResponseWriter where
  wroteHeader : Bool
  Code : Nat
  Body : String
  deriving DecidableEq, Repr

/-- A fresh recorder (`httptest.NewRecorder()`). -/
def NewRecorder : ResponseWriter := { wroteHeader := false, Code := 200, Body := "" }

/-- The method `w.WriteHeader(code)`. -/
def ResponseWriter.WriteHeader (w : ResponseWriter) (code : Nat) : ResponseWriter :=
  if w.wroteHeader then w else { w with wroteHeader := true, Code := code }

/-- The method `w.Write(b)`: sends the header with status 200 first if none was sent. -/
def ResponseWriter.Write (w : ResponseWriter) (b : String) : ResponseWriter :=
  let w1 := if w.wroteHeader then w else w.WriteHeader 200
  { w1 with Body := w1.Body ++ b }

/-- The statement `json.NewEncoder(w).Encode(map[string]string{"error": msg})`. -/
def ResponseWriter.encodeError (w : ResponseWriter) (msg : String) : ResponseWriter :=
  w.Write (encodeErrorMap msg)

/-- The text of a `Temperature` as `encoding/json` marshals it, newline included. -/
def temperatureJSON (t : Temperature) : String :=
  String.mk (chLBrace :: (jsonQuote "temp_C" ++ (':' :: (formatFloat t.TempC ++ (',' ::
    (jsonQuote "temp_F" ++ (':' :: (formatFloat t.TempF ++ (',' ::
    (jsonQuote "temp_K" ++ (':' :: (formatFloat t.TempK ++ [chRBrace, '\n']))))))))))))

/-- The result of marshalling a `Temperature`: `encoding/json` refuses NaN and the infinities
with an `UnsupportedValueError`, fields in declaration order. -/
def marshalTemperature (t : Temperature) : Except String String :=
  if !t.TempC.isFinite then .error "json: unsupported value (temp_C)"
  else if !t.TempF.isFinite then .error "json: unsupported value (temp_F)"
  else if !t.TempK.isFinite then .error "json: unsupported value (temp_K)"
  else .ok (temperatureJSON t)

/-- The statement `json.NewEncoder(w).Encode(Temperature)`, its error result dropped as in the
source: `Encode` marshals into a buffer first and writes to `w` only when that succeeded. -/
def ResponseWriter.encodeTemperature (w : ResponseWriter) (t : Temperature) : ResponseWriter :=
  match marshalTemperature t with
  | .error _ => w
  | .ok text => w.Write text

/-! ## The program (`main.go`, lines 70-156) -/

/-- The URL `CepAwesomeapi` builds (line 109). -/
def cepURL (cep : String) : String := "https://cep.awesomeapi.com.br/json/" ++ cep

/-- The URL `WeatherApi` builds (line 134). -/
def weatherURL (latitude longitude : String) : String :=
  "https://api.open-meteo.com/v1/forecast?latitude=" ++ latitude ++ "&longitude=" ++ longitude
    ++ "&current=temperature_2m"

/-- The function `CepAwesomeapi` (lines 108-131): the result and the events of the call. The
status code of the response is not looked at. -/
def CepAwesomeapi (E : Env) (cep : String) :
    Except String CepAwesomeapiResponse × List Event :=
  let url := cepURL cep
  match E.newRequest url with
  | .error err => (.error err, [.newRequest url])
  | .ok _ =>
    match E.clientDo url with
    | .error err => (.error err, [.newRequest url, .clientDo url])
    | .ok resp =>
      match resp.Body with
      | .error err => (.error err, [.newRequest url, .clientDo url])
      | .ok body =>
        match E.unmarshalCep body with
        | .error err => (.error err, [.newRequest url, .clientDo url])
        | .ok v => (.ok v, [.newRequest url, .clientDo url])

/-- The function `WeatherApi` (lines 133-156). -/
def WeatherApi (E : Env) (latitude longitude : String) :
    Except String WeatherApiResponse × List Event :=
  let url := weatherURL latitude longitude
  match E.newRequest url with
  | .error err => (.error err, [.newRequest url])
  | .ok _ =>
    match E.clientDo url with
    | .error err => (.error err, [.newRequest url, .clientDo url])
    | .ok resp =>
      match resp.Body with
      | .error err => (.error err, [.newRequest url, .clientDo url])
      | .ok body =>
        match E.unmarshalWeather body with
        | .error err => (.error err, [.newRequest url, .clientDo url])
        | .ok v => (.ok v, [.newRequest url, .clientDo url])

/-- The composite literal of lines 99-103, for the Celsius value `c`. The constants `1.8`,
`32` and `273.15` are converted to float64. -/
def buildTemperature (fused : Bool) (c : Float64) : Temperature :=
  { TempC := c
    TempF := Float64.mulAdd fused c (Float64.ofDecimal false 18 (-1)) (Float64.ofDecimal false 32 0)
    TempK := Float64.add c (Float64.ofDecimal false 27315 (-2)) }

/-- The function `HandlerCep` (lines 70-106), for the path parameter `cep` (the value of
`chi.URLParam(r, "cep")`): the final state of the response writer and the events of the run. -/
def HandlerCep (E : Env) (w : ResponseWriter) (cep : String) : ResponseWriter × List Event :=
  if cep = "" then
    ((w.WriteHeader 422).encodeError "Invalid zipcode", [])
  else if cep.utf8ByteSize ≠ 8 then
    ((w.WriteHeader 422).encodeError "Invalid zipcode", [])
  else
    match CepAwesomeapi E cep with
    | (.error _, evs1) =>
      ((w.WriteHeader 404).encodeError "Can not find zipcode", .callCepAwesomeapi cep :: evs1)
    | (.ok rec, evs1) =>
      match WeatherApi E rec.Latitude rec.Longitude with
      | (.error _, evs2) =>
        ((w.WriteHeader 404).encodeError "Can not find weather",
          .callCepAwesomeapi cep :: (evs1 ++ .callWeatherApi rec.Latitude rec.Longitude :: evs2))
      | (.ok weather, evs2) =>
        (w.encodeTemperature (buildTemperature E.fusedMulAdd weather.Current.Temperature2M),
          .callCepAwesomeapi cep :: (evs1 ++ .callWeatherApi rec.Latitude rec.Longitude :: evs2))

/-! ## URLs (`net/url`) -/

/-- The bytes of the UTF-8 encoding of a character. -/
def utf8Bytes (c : Char) : List Nat :=
  if c.toNat < 128 then [c.toNat]
  else if c.toNat < 2048 then [192 + c.toNat / 64, 128 + c.toNat % 64]
  else if c.toNat < 65536 then
    [224 + c.toNat / 4096, 128 + c.toNat / 64 % 64, 128 + c.toNat % 64]
  else
    [240 + c.toNat / 262144, 128 + c.toNat / 4096 % 64, 128 + c.toNat / 64 % 64,
      128 + c.toNat % 64]

/-- The bytes of a Go string. -/
def goBytes (s : String) : List Nat := s.toList.flatMap utf8Bytes

/-- Cuts the text at the first occurrence of `sep`: what precedes it and, when `sep` occurs,
what follows it (Go's `strings.Cut`). -/
def cutAt (sep : Nat) : List Nat → List Nat × Option (List Nat)
  | [] => ([], none)
  | c :: cs =>
    if c = sep then ([], some cs)
    else ((c :: (cutAt sep cs).1), (cutAt sep cs).2)

/-- Splits the text at every occurrence of `sep`. -/
def splitOn (sep : Nat) : List Nat → List (List Nat)
  | [] => [[]]
  | c :: cs =>
    if c = sep then [] :: splitOn sep cs
    else
      match splitOn sep cs with
      | [] => [[c]]
      | piece :: pieces => (c :: piece) :: pieces

/-- The value of a hexadecimal digit. -/
def unhex (b : Nat) : Option Nat :=
  if 48 ≤ b ∧ b ≤ 57 then some (b - 48)
  else if 97 ≤ b ∧ b ≤ 102 then some (b - 87)
  else if 65 ≤ b ∧ b ≤ 70 then some (b - 55)
  else none

/-- The function `url.QueryUnescape`: `%XX` becomes the byte `XX` and `+` a space; a `%` that
is not followed by two hexadecimal digits is an error. -/
def queryUnescape : Nat → List Nat → Option (List Nat)
  | 0, _ => none
  | _ + 1, [] => some []
  | fuel + 1, b :: rest =>
    if b = 37 then
      match rest with
      | h1 :: h2 :: rest2 =>
        match unhex h1, unhex h2, queryUnescape fuel rest2 with
        | some hi, some lo, some out => some ((16 * hi + lo) :: out)
        | _, _, _ => none
      | _ => none
    else if b = 43 then (queryUnescape fuel rest).map (fun out => 32 :: out)
    else (queryUnescape fuel rest).map (fun out => b :: out)

/-- One `key=value` piece of a query, as `url.ParseQuery` reads it (Go 1.17 and later): a piece
that contains `;`, is empty, or has a malformed escape is dropped; otherwise the piece is cut
at its first `=` and both sides are unescaped. -/
def parsePiece (piece : List Nat) : Option (List Nat × List Nat) :=
  if 59 ∈ piece then none
  else if piece = [] then none
  else
    match queryUnescape (piece.length + 1) (cutAt 61 piece).1,
      queryUnescape (piece.length + 1) ((cutAt 61 piece).2.getD []) with
    | some key, some value => some (key, value)
    | _, _ => none

/-- The parameters `url.ParseQuery` finds in a raw query, in order of appearance. -/
def parseQuery (query : List Nat) : List (List Nat × List Nat) :=
  (splitOn 38 query).filterMap parsePiece

/-- Whether the byte is an ASCII control character. -/
def isCTL (b : Nat) : Bool := b < 32 || b = 127

/-- The query parameters of a URL string, `url.Parse(raw)` followed by `URL.Query()`, for a
string that starts with a valid scheme, authority and path free of `?` and `#`, as the two
URLs of the program do. `url.Parse` cuts the fragment at the first `#`, fails when what
precedes it contains a control character or when the fragment has a malformed escape, and
takes as raw query what follows the first `?`. The result is `none` when `url.Parse` fails
(then `http.NewRequest` fails and no request exists). -/
def urlQuery (raw : List Nat) : Option (List (List Nat × List Nat)) :=
  if ((cutAt 35 raw).1).any isCTL then none
  else if (queryUnescape (raw.length + 1) ((cutAt 35 raw).2.getD [])).isNone then none
  else some (parseQuery ((cutAt 63 (cutAt 35 raw).1).2.getD []))

/-- Whether the byte passes through a query value unchanged: not a control character and none
of `#`, `%`, `&`, `+`, `;`. -/
def plainByte (b : Nat) : Bool :=
  !(isCTL b) && b != 35 && b != 37 && b != 38 && b != 43 && b != 59

/-! ## Concrete environments -/

/-- An environment given by tables: the exchange for each URL (a transport failure for any
other URL) and the record each body decodes to (any other body is not JSON). Every URL is
accepted by `http.NewRequest`, and the multiply-add is not fused. -/
def Env.ofTables (exchanges : List (String × Except String HttpResponse))
    (cepBodies : List (String × CepAwesomeapiResponse))
    (weatherBodies : List (String × WeatherApiResponse)) : Env :=
  { newRequest := fun _ => .ok ()
    clientDo := fun url =>
      match exchanges.lookup url with
      | some r => r
      | none => .error "dial tcp: lookup failed: no such host"
    unmarshalCep := fun body =>
      match cepBodies.lookup body with
      | some v => .ok v
      | none => .error "invalid character looking for beginning of value"
    unmarshalWeather := fun body =>
      match weatherBodies.lookup body with
      | some v => .ok v
      | none => .error "invalid character looking for beginning of value"
    fusedMulAdd := false }

/-- The postal record of `TestHandlerCep_Success`. -/
def paulistaRecord : CepAwesomeapiResponse :=
  { CepAwesomeapiResponse.zero with
    Cep := "01310100", Latitude := "-23.5505", Longitude := "-46.6333", City := "São Paulo",
    State := "SP" }

/-- The body the lookup service of `TestHandlerCep_Success` answers with. -/
def paulistaBody : String :=
  "\x7b\"cep\":\"01310100\",\"address_type\":\"\",\"address_name\":\"\",\"address\":\"\"," ++
  "\"state\":\"SP\",\"district\":\"\",\"lat\":\"-23.5505\",\"lng\":\"-46.6333\"," ++
  "\"city\":\"São Paulo\",\"city_ibge\":\"\",\"ddd\":\"\"\x7d\n"

/-- A weather record whose only non-zero field is the current temperature. -/
def weatherRecord (t : Float64) : WeatherApiResponse :=
  { WeatherApiResponse.zero with
    Current := { Time := "", Interval := 0, Temperature2M := t } }

/-- A weather body with the current temperature written as `temp`. -/
def weatherBody (temp : String) : String :=
  "\x7b\"current\":\x7b\"time\":\"2024-01-01T12:00\",\"interval\":900,\"temperature_2m\":" ++
  temp ++ "\x7d\x7d\n"

/-- Both services answer: `01310100` resolves to `-23.5505` / `-46.6333` and the weather
service reports 25.5 degrees Celsius there. -/
def sampleEnv : Env :=
  Env.ofTables
    [(cepURL "01310100", .ok { StatusCode := 200, Body := .ok paulistaBody }),
     (weatherURL "-23.5505" "-46.6333", .ok { StatusCode := 200, Body := .ok (weatherBody "25.5") })]
    [(paulistaBody, paulistaRecord)]
    [(weatherBody "25.5", weatherRecord (Float64.ofDecimal false 255 (-1)))]

/-- As `sampleEnv`, but the weather service reports `1e308`, a number `json.Unmarshal`
accepts for a `float64` field. -/
def overflowEnv : Env :=
  Env.ofTables
    [(cepURL "01310100", .ok { StatusCode := 200, Body := .ok paulistaBody }),
     (weatherURL "-23.5505" "-46.6333", .ok { StatusCode := 200, Body := .ok (weatherBody "1e308") })]
    [(paulistaBody, paulistaRecord)]
    [(weatherBody "1e308", weatherRecord (Float64.ofDecimal false 1 308))]

/-- The body the mock server of `TestHandlerCep_CepNotFound` answers with. -/
def notFoundBody : String := "\x7b\"error\":\"CEP não encontrado\"\x7d\n"

/-- The body with which the weather service refuses a request. -/
def weatherRefusalBody : String := "\x7b\"error\":true,\"reason\":\"invalid latitude\"\x7d\n"

/-- The lookup service answers `404 Not Found` with a JSON object, as the mock server of
`TestHandlerCep_CepNotFound` does, and the weather service refuses the empty coordinates with
`400 Bad Request` and a JSON object. `json.Unmarshal` ignores object members that match no
field of the target struct, so both bodies decode without error, to the zero records. -/
def notFoundEnv : Env :=
  Env.ofTables
    [(cepURL "00000000", .ok { StatusCode := 404, Body := .ok notFoundBody }),
     (weatherURL "" "", .ok { StatusCode := 400, Body := .ok weatherRefusalBody })]
    [(notFoundBody, CepAwesomeapiResponse.zero)]
    [(weatherRefusalBody, WeatherApiResponse.zero)]

/-- The events of a run of `CepAwesomeapi` that reaches the network. -/
def cepEvents (cep : String) : List Event :=
  [.newRequest (cepURL cep), .clientDo (cepURL cep)]

/-- The events of a run of `WeatherApi` that reaches the network. -/
def weatherEvents (latitude longitude : String) : List Event :=
  [.newRequest (weatherURL latitude longitude), .clientDo (weatherURL latitude longitude)]

/-- No upstream service can be reached. -/
def offlineEnv : Env := Env.ofTables [] [] []

/-- The lookup service answers with an HTML page; the weather service cannot be reached. -/
def htmlEnv : Env :=
  Env.ofTables
    [(cepURL "01310100", .ok { StatusCode := 200, Body := .ok "<html>Service Unavailable</html>" })]
    [] []

/-- The lookup service answers as in `sampleEnv`; the weather service cannot be reached. -/
def weatherDownEnv : Env :=
  Env.ofTables
    [(cepURL "01310100", .ok { StatusCode := 200, Body := .ok paulistaBody })]
    [(paulistaBody, paulistaRecord)] []

/-- The lookup service answers as in `sampleEnv`; the weather service breaks the connection
while the body is read. -/
def weatherTruncatedEnv : Env :=
  Env.ofTables
    [(cepURL "01310100", .ok { StatusCode := 200, Body := .ok paulistaBody }),
     (weatherURL "-23.5505" "-46.6333", .ok { StatusCode := 200, Body := .error "unexpected EOF" })]
    [(paulistaBody, paulistaRecord)] []

/-! ## The response writer on the error paths -/

theorem invalid_zipcode_response :
    (NewRecorder.WriteHeader 422).encodeError "Invalid zipcode" =
      { wroteHeader := true, Code := 422, Body := "\x7b\"error\":\"Invalid zipcode\"\x7d\n" } := by
  decide

theorem zipcode_not_found_response :
    (NewRecorder.WriteHeader 404).encodeError "Can not find zipcode" =
      { wroteHeader := true, Code := 404,
        Body := "\x7b\"error\":\"Can not find zipcode\"\x7d\n" } := by
  decide

theorem weather_not_found_response :
    (NewRecorder.WriteHeader 404).encodeError "Can not find weather" =
      { wroteHeader := true, Code := 404,
        Body := "\x7b\"error\":\"Can not find weather\"\x7d\n" } := by
  decide

theorem ne_empty_of_utf8ByteSize_eight (cep : String) (h : cep.utf8ByteSize = 8) : cep ≠ "" := by
  intro h0
  subst h0
  revert h
  decide

/-! ## The paths of `HandlerCep` -/

theorem HandlerCep_of_wrong_length (E : Env) (cep : String) (h : cep.utf8ByteSize ≠ 8) :
    HandlerCep E NewRecorder cep =
      ({ wroteHeader := true, Code := 422, Body := "\x7b\"error\":\"Invalid zipcode\"\x7d\n" },
        []) := by
  unfold HandlerCep
  by_cases h0 : cep = ""
  · simp only [h0, if_true, invalid_zipcode_response]
  · simp only [h0, if_false, h, ne_eq, not_false_eq_true, if_true, invalid_zipcode_response]

theorem HandlerCep_of_lookup_error (E : Env) (cep err : String) (evs1 : List Event)
    (h8 : cep.utf8ByteSize = 8) (hc : CepAwesomeapi E cep = (.error err, evs1)) :
    HandlerCep E NewRecorder cep =
      ({ wroteHeader := true, Code := 404,
         Body := "\x7b\"error\":\"Can not find zipcode\"\x7d\n" },
        .callCepAwesomeapi cep :: evs1) := by
  unfold HandlerCep
  simp only [ne_empty_of_utf8ByteSize_eight cep h8, if_false, h8, ne_eq, not_true_eq_false, hc,
    zipcode_not_found_response]

theorem HandlerCep_of_weather_error (E : Env) (cep err : String) (rec : CepAwesomeapiResponse)
    (evs1 evs2 : List Event) (h8 : cep.utf8ByteSize = 8)
    (hc : CepAwesomeapi E cep = (.ok rec, evs1))
    (hw : WeatherApi E rec.Latitude rec.Longitude = (.error err, evs2)) :
    HandlerCep E NewRecorder cep =
      ({ wroteHeader := true, Code := 404,
         Body := "\x7b\"error\":\"Can not find weather\"\x7d\n" },
        .callCepAwesomeapi cep ::
          (evs1 ++ .callWeatherApi rec.Latitude rec.Longitude :: evs2)) := by
  unfold HandlerCep
  simp only [ne_empty_of_utf8ByteSize_eight cep h8, if_false, h8, ne_eq, not_true_eq_false, hc,
    hw, weather_not_found_response]

theorem HandlerCep_of_success (E : Env) (cep : String) (rec : CepAwesomeapiResponse)
    (weather : WeatherApiResponse) (evs1 evs2 : List Event) (h8 : cep.utf8ByteSize = 8)
    (hc : CepAwesomeapi E cep = (.ok rec, evs1))
    (hw : WeatherApi E rec.Latitude rec.Longitude = (.ok weather, evs2)) :
    HandlerCep E NewRecorder cep =
      (NewRecorder.encodeTemperature
          (buildTemperature E.fusedMulAdd weather.Current.Temperature2M),
        .callCepAwesomeapi cep ::
          (evs1 ++ .callWeatherApi rec.Latitude rec.Longitude :: evs2)) := by
  unfold HandlerCep
  simp only [ne_empty_of_utf8ByteSize_eight cep h8, if_false, h8, ne_eq, not_true_eq_false, hc,
    hw]

theorem encodeTemperature_code (t : Temperature) :
    (NewRecorder.encodeTemperature t).Code = 200 := by
  unfold ResponseWriter.encodeTemperature
  cases marshalTemperature t <;> rfl

/-- Every run of `CepAwesomeapi` or `WeatherApi` ends in an error or in a record. -/
theorem result_cases {α : Type} (r : Except String α × List Event) :
    (∃ err evs, r = (.error err, evs)) ∨ (∃ v evs, r = (.ok v, evs)) := by
  rcases r with ⟨_ | _, evs⟩
  · exact Or.inl ⟨_, _, rfl⟩
  · exact Or.inr ⟨_, _, rfl⟩

/-! ## Evaluations of the conversion and of its JSON text -/

theorem buildTemperature_zero (fused : Bool) :
    buildTemperature fused Float64.zero =
      { TempC := .finite false 0 (-1074), TempF := .finite false 4503599627370496 (-47),
        TempK := .finite false 4805305618032230 (-44) } := by
  cases fused <;> decide!

theorem buildTemperature_1e308 (fused : Bool) :
    buildTemperature fused (Float64.ofDecimal false 1 308) =
      { TempC := .finite false 5010420900022432 971, TempF := .inf false,
        TempK := .finite false 5010420900022432 971 } := by
  cases fused <;> decide!

theorem encodeTemperature_zero :
    NewRecorder.encodeTemperature
        { TempC := .finite false 0 (-1074), TempF := .finite false 4503599627370496 (-47),
          TempK := .finite false 4805305618032230 (-44) } =
      { wroteHeader := true, Code := 200,
        Body := "\x7b\"temp_C\":0,\"temp_F\":32,\"temp_K\":273.15\x7d\n" } := by
  decide!

theorem buildTemperature_small (fused : Bool) :
    buildTemperature fused (.finite false 4503599627370496 (-76)) =
      { TempC := .finite false 4503599627370496 (-76),
        TempF := .finite false 4503599642469990 (-47),
        TempK := .finite false 4805305619080806 (-44) } := by
  cases fused <;> decide!

/-- The text for `t = 2^-24`, a power of two: the 16-digit decimal above the value is written,
the one below it does not read back as the value. -/
theorem temperatureJSON_small :
    temperatureJSON
        { TempC := .finite false 4503599627370496 (-76),
          TempF := .finite false 4503599642469990 (-47),
          TempK := .finite false 4805305619080806 (-44) } =
      "\x7b\"temp_C\":5.960464477539063e-8,\"temp_F\":32.00000010728836,\"temp_K\":273.1500000596046\x7d\n" := by
  decide!

theorem shortestDecimal_of_not_canonical (mant m : Nat) (exp e : Int) (neg : Bool)
    (r : Nat × Int) (h1 : shortestSearch 17 1 mant exp = none)
    (h2 : Float64.roundDyadic false mant exp = .finite neg m e) (h3 : m ≠ 0)
    (h4 : shortestSearch 17 1 m e = some r) : shortestDecimal mant exp = r := by
  unfold shortestDecimal
  rw [h1]
  simp only [h2, h3, if_false, h4]

/-- The same text for `2^-24` written as `1 * 2^-24`, a representation that is not
canonical. -/
theorem formatFloat_small_not_canonical :
    formatFloat (.finite false 1 (-24)) = String.toList "5.960464477539063e-8" := by
  have h := shortestDecimal_of_not_canonical 1 4503599627370496 (-24) (-76) false
    (5960464477539063, -23) (by decide!) (by decide!) (by decide) (by decide!)
  unfold formatFloat
  simp only [h]
  decide!

theorem encodeTemperature_of_infinite_TempF (c k : Float64) (neg : Bool) :
    NewRecorder.encodeTemperature { TempC := c, TempF := .inf neg, TempK := k } = NewRecorder := by
  unfold ResponseWriter.encodeTemperature marshalTemperature
  cases c <;> rfl

theorem weatherRecord_temperature (t : Float64) :
    (weatherRecord t).Current.Temperature2M = t := rfl

theorem zero_temperature : WeatherApiResponse.zero.Current.Temperature2M = Float64.zero := rfl

/-- The float64 values of the decimal constants of `TestTemperature_Conversion`. -/
theorem listed_constants :
    Float64.ofDecimal true 27315 (-2) = .finite true 4805305618032230 (-44) ∧
    Float64.ofDecimal false 0 0 = .finite false 0 (-1074) ∧
    Float64.ofDecimal false 25 0 = .finite false 7036874417766400 (-48) ∧
    Float64.ofDecimal false 100 0 = .finite false 7036874417766400 (-46) ∧
    Float64.ofDecimal true 10 0 = .finite true 5629499534213120 (-49) ∧
    Float64.ofDecimal true 45966999999999996 (-14) = .finite true 8086600159036702 (-44) ∧
    Float64.ofDecimal true 45967 (-2) = .finite true 8086600159036703 (-44) ∧
    Float64.ofDecimal false 32 0 = .finite false 4503599627370496 (-47) ∧
    Float64.ofDecimal false 77 0 = .finite false 5418393301680128 (-46) ∧
    Float64.ofDecimal false 212 0 = .finite false 7459086882832384 (-45) ∧
    Float64.ofDecimal false 14 0 = .finite false 7881299347898368 (-49) ∧
    Float64.ofDecimal false 27315 (-2) = .finite false 4805305618032230 (-44) ∧
    Float64.ofDecimal false 29815 (-2) = .finite false 5245110269142630 (-44) ∧
    Float64.ofDecimal false 37315 (-2) = .finite false 6564524222473830 (-44) ∧
    Float64.ofDecimal false 26315 (-2) = .finite false 4629383757588070 (-44) := by
  decide!

/-- The Fahrenheit value computed at absolute zero is within the tolerance `0.01` that
`TestTemperature_Conversion` allows around `-459.67`. -/
theorem absolute_zero_within_tolerance :
    |(Float64.ofDecimal true 45966999999999996 (-14)).toRat - (-45967 / 100)| ≤ 1 / 100 := by
  rw [listed_constants.2.2.2.2.2.1]
  simp only [Float64.toRat, if_true]
  rw [abs_le]
  constructor <;> norm_num

/-- The values the test `TestTemperature_Conversion` lists, as the conversion computes them,
with or without a fused multiply-add. -/
theorem listed_conversions (fused : Bool) :
    buildTemperature fused (Float64.ofDecimal true 27315 (-2)) =
      { TempC := Float64.ofDecimal true 27315 (-2),
        TempF := Float64.ofDecimal true 45966999999999996 (-14),
        TempK := Float64.ofDecimal false 0 0 } ∧
    buildTemperature fused (Float64.ofDecimal false 0 0) =
      { TempC := Float64.ofDecimal false 0 0, TempF := Float64.ofDecimal false 32 0,
        TempK := Float64.ofDecimal false 27315 (-2) } ∧
    buildTemperature fused (Float64.ofDecimal false 25 0) =
      { TempC := Float64.ofDecimal false 25 0, TempF := Float64.ofDecimal false 77 0,
        TempK := Float64.ofDecimal false 29815 (-2) } ∧
    buildTemperature fused (Float64.ofDecimal false 100 0) =
      { TempC := Float64.ofDecimal false 100 0, TempF := Float64.ofDecimal false 212 0,
        TempK := Float64.ofDecimal false 37315 (-2) } ∧
    buildTemperature fused (Float64.ofDecimal true 10 0) =
      { TempC := Float64.ofDecimal true 10 0, TempF := Float64.ofDecimal false 14 0,
        TempK := Float64.ofDecimal false 26315 (-2) } := by
  obtain ⟨h1, h2, h3, h4, h5, h6, -, h8, h9, h10, h11, h12, h13, h14, h15⟩ := listed_constants
  rw [h1, h2, h3, h4, h5, h6, h8, h9, h10, h11, h12, h13, h14, h15]
  cases fused <;> decide!

/-! ## Byte length and character count -/

theorem utf8Size_of_ascii (c : Char) (h : c.toNat < 128) : c.utf8Size = 1 := by
  have h1 : c.val ≤ 127 := by
    rw [UInt32.le_def]
    show c.val.val ≤ (127 : UInt32).val
    have : c.val.val.val < 128 := h
    exact Fin.le_def.mpr (by simpa using Nat.le_of_lt_succ this)
  unfold Char.utf8Size
  exact if_pos h1

theorem utf8ByteSize_go_of_ascii (cs : List Char) (h : ∀ c ∈ cs, c.toNat < 128) :
    String.utf8ByteSize.go cs = cs.length := by
  induction cs with
  | nil => rfl
  | cons c cs ih =>
    show String.utf8ByteSize.go cs + c.utf8Size = cs.length + 1
    rw [ih (fun d hd => h d (List.mem_cons_of_mem c hd)),
      utf8Size_of_ascii c (h c (List.mem_cons_self c cs))]

theorem utf8ByteSize_of_ascii (s : String) (h : ∀ c ∈ s.toList, c.toNat < 128) :
    s.utf8ByteSize = s.length :=
  utf8ByteSize_go_of_ascii s.data h

/-! ## Events of the clients -/

theorem CepAwesomeapi_events (E : Env) (cep : String) :
    (CepAwesomeapi E cep).2 = [.newRequest (cepURL cep)] ∨
      (CepAwesomeapi E cep).2 = cepEvents cep := by
  dsimp only [CepAwesomeapi, cepEvents]
  rcases E.newRequest (cepURL cep) with e | u
  · exact Or.inl rfl
  · refine Or.inr ?_
    rcases E.clientDo (cepURL cep) with e | ⟨st, (e | body)⟩
    · rfl
    · rfl
    · show (match E.unmarshalCep body with
        | .error err => (Except.error err, [Event.newRequest (cepURL cep), .clientDo (cepURL cep)])
        | .ok v => (.ok v, [.newRequest (cepURL cep), .clientDo (cepURL cep)])).2 = _
      rcases E.unmarshalCep body with e | v <;> rfl

theorem WeatherApi_events (E : Env) (latitude longitude : String) :
    (WeatherApi E latitude longitude).2 = [.newRequest (weatherURL latitude longitude)] ∨
      (WeatherApi E latitude longitude).2 = weatherEvents latitude longitude := by
  dsimp only [WeatherApi, weatherEvents]
  rcases E.newRequest (weatherURL latitude longitude) with e | u
  · exact Or.inl rfl
  · refine Or.inr ?_
    rcases E.clientDo (weatherURL latitude longitude) with e | ⟨st, (e | body)⟩
    · rfl
    · rfl
    · show (match E.unmarshalWeather body with
        | .error err => (Except.error err, [Event.newRequest (weatherURL latitude longitude),
            .clientDo (weatherURL latitude longitude)])
        | .ok v => (.ok v, [.newRequest (weatherURL latitude longitude),
            .clientDo (weatherURL latitude longitude)])).2 = _
      rcases E.unmarshalWeather body with e | v <;> rfl

theorem CepAwesomeapi_no_weather_call (E : Env) (cep : String) :
    (CepAwesomeapi E cep).2.filter Event.isWeatherCall = [] := by
  rcases CepAwesomeapi_events E cep with h | h <;> rw [h] <;> rfl

theorem WeatherApi_no_weather_call (E : Env) (latitude longitude : String) :
    (WeatherApi E latitude longitude).2.filter Event.isWeatherCall = [] := by
  rcases WeatherApi_events E latitude longitude with h | h <;> rw [h] <;> rfl

/-- The status code of the upstream answer plays no part: whenever the exchange completes and
the body decodes, `CepAwesomeapi` returns the decoded record. -/
theorem CepAwesomeapi_of_decodable (E : Env) (cep body : String) (status : Nat)
    (v : CepAwesomeapiResponse) (hn : E.newRequest (cepURL cep) = .ok ())
    (hd : E.clientDo (cepURL cep) = .ok { StatusCode := status, Body := .ok body })
    (hu : E.unmarshalCep body = .ok v) :
    CepAwesomeapi E cep = (.ok v, cepEvents cep) := by
  simp only [CepAwesomeapi, hn, hd, hu, cepEvents]

/-- The failures `CepAwesomeapi` reports: the request cannot be built, the transport fails,
the body cannot be read, or the body does not decode. -/
theorem CepAwesomeapi_error_of_failure (E : Env) (cep : String)
    (h : (∃ err, E.newRequest (cepURL cep) = .error err) ∨
      (∃ err, E.clientDo (cepURL cep) = .error err) ∨
      (∃ status err,
        E.clientDo (cepURL cep) = .ok { StatusCode := status, Body := .error err }) ∨
      (∃ status body err,
        E.clientDo (cepURL cep) = .ok { StatusCode := status, Body := .ok body } ∧
        E.unmarshalCep body = .error err)) :
    ∃ err evs, CepAwesomeapi E cep = (.error err, evs) := by
  rcases hreq : E.newRequest (cepURL cep) with e | u
  · exact ⟨e, [.newRequest (cepURL cep)], by simp only [CepAwesomeapi, hreq]⟩
  · rcases h with ⟨err, h⟩ | ⟨err, h⟩ | ⟨status, err, h⟩ | ⟨status, body, err, h, hu⟩
    · rw [hreq] at h
      cases h
    · exact ⟨err, cepEvents cep, by simp only [CepAwesomeapi, hreq, h, cepEvents]⟩
    · exact ⟨err, cepEvents cep, by simp only [CepAwesomeapi, hreq, h, cepEvents]⟩
    · exact ⟨err, cepEvents cep, by simp only [CepAwesomeapi, hreq, h, hu, cepEvents]⟩

/-- The part of the lookup-failure contract the code keeps: when the lookup fails in a way
`CepAwesomeapi` reports, the answer is 404 with the fixed body and the weather client is not
called. -/
theorem HandlerCep_of_lookup_failure (E : Env) (cep : String) (h8 : cep.utf8ByteSize = 8)
    (h : (∃ err, E.newRequest (cepURL cep) = .error err) ∨
      (∃ err, E.clientDo (cepURL cep) = .error err) ∨
      (∃ status err,
        E.clientDo (cepURL cep) = .ok { StatusCode := status, Body := .error err }) ∨
      (∃ status body err,
        E.clientDo (cepURL cep) = .ok { StatusCode := status, Body := .ok body } ∧
        E.unmarshalCep body = .error err)) :
    (HandlerCep E NewRecorder cep).1 =
      { wroteHeader := true, Code := 404,
        Body := "\x7b\"error\":\"Can not find zipcode\"\x7d\n" } ∧
    (HandlerCep E NewRecorder cep).2.filter Event.isWeatherCall = [] := by
  obtain ⟨err, evs, hc⟩ := CepAwesomeapi_error_of_failure E cep h
  have hev : evs.filter Event.isWeatherCall = [] := by
    have := CepAwesomeapi_no_weather_call E cep
    rwa [hc] at this
  rw [HandlerCep_of_lookup_error E cep err evs h8 hc]
  refine ⟨rfl, ?_⟩
  simp [List.filter_cons, hev, Event.isWeatherCall]

/-! ## Query parameters of the weather URL -/

theorem cutAt_of_not_mem (sep : Nat) (xs : List Nat) (h : sep ∉ xs) :
    cutAt sep xs = (xs, none) := by
  induction xs with
  | nil => rfl
  | cons c cs ih =>
    have hc : c ≠ sep := fun e => h (e ▸ List.mem_cons_self c cs)
    have hcs : sep ∉ cs := fun m => h (List.mem_cons_of_mem c m)
    simp only [cutAt, hc, if_false, ih hcs]

theorem cutAt_append (sep : Nat) (xs ys : List Nat) (h : sep ∉ xs) :
    cutAt sep (xs ++ sep :: ys) = (xs, some ys) := by
  induction xs with
  | nil => simp [cutAt]
  | cons c cs ih =>
    have hc : c ≠ sep := fun e => h (e ▸ List.mem_cons_self c cs)
    have hcs : sep ∉ cs := fun m => h (List.mem_cons_of_mem c m)
    show cutAt sep (c :: (cs ++ sep :: ys)) = _
    simp only [cutAt, hc, if_false, ih hcs]

theorem splitOn_of_not_mem (sep : Nat) (xs : List Nat) (h : sep ∉ xs) :
    splitOn sep xs = [xs] := by
  induction xs with
  | nil => rfl
  | cons c cs ih =>
    have hc : c ≠ sep := fun e => h (e ▸ List.mem_cons_self c cs)
    have hcs : sep ∉ cs := fun m => h (List.mem_cons_of_mem c m)
    simp only [splitOn, hc, if_false, ih hcs]

theorem splitOn_append (sep : Nat) (xs ys : List Nat) (h : sep ∉ xs) :
    splitOn sep (xs ++ sep :: ys) = xs :: splitOn sep ys := by
  induction xs with
  | nil => simp [splitOn]
  | cons c cs ih =>
    have hc : c ≠ sep := fun e => h (e ▸ List.mem_cons_self c cs)
    have hcs : sep ∉ cs := fun m => h (List.mem_cons_of_mem c m)
    show splitOn sep (c :: (cs ++ sep :: ys)) = _
    simp only [splitOn, hc, if_false, ih hcs]

/-- Unescaping leaves a text without `%` and `+` as it is. -/
theorem queryUnescape_of_plain (xs : List Nat) (fuel : Nat) (hfuel : xs.length < fuel)
    (h : ∀ b ∈ xs, b ≠ 37 ∧ b ≠ 43) : queryUnescape fuel xs = some xs := by
  induction xs generalizing fuel with
  | nil =>
    cases fuel with
    | zero => exact absurd hfuel (Nat.not_lt_zero _)
    | succ f => rfl
  | cons c cs ih =>
    cases fuel with
    | zero => exact absurd hfuel (Nat.not_lt_zero _)
    | succ f =>
      have hc := h c (List.mem_cons_self c cs)
      have hlen : cs.length < f := Nat.lt_of_succ_lt_succ hfuel
      simp only [queryUnescape, hc.1, hc.2, if_false,
        ih f hlen (fun b hb => h b (List.mem_cons_of_mem c hb)), Option.map_some']

theorem goBytes_append (a b : String) : goBytes (a ++ b) = goBytes a ++ goBytes b := by
  simp only [goBytes, String.toList, String.data_append, List.flatMap_append]

theorem plainByte_spec (b : Nat) (h : plainByte b = true) :
    isCTL b = false ∧ b ≠ 35 ∧ b ≠ 37 ∧ b ≠ 38 ∧ b ≠ 43 ∧ b ≠ 59 := by
  simp only [plainByte, Bool.and_eq_true, Bool.not_eq_true', bne_iff_ne, ne_eq] at h
  exact ⟨h.1.1.1.1.1, h.1.1.1.1.2, h.1.1.1.2, h.1.1.2, h.1.2, h.2⟩

theorem weatherURL_bytes (latitude longitude : String) :
    goBytes (weatherURL latitude longitude) =
      goBytes "https://api.open-meteo.com/v1/forecast" ++ 63 ::
        ((goBytes "latitude" ++ 61 :: goBytes latitude) ++ 38 ::
          ((goBytes "longitude" ++ 61 :: goBytes longitude) ++ 38 ::
            goBytes "current=temperature_2m")) := by
  have e1 : goBytes "https://api.open-meteo.com/v1/forecast?latitude=" =
      goBytes "https://api.open-meteo.com/v1/forecast" ++ 63 :: (goBytes "latitude" ++ [61]) := by
    decide
  have e2 : goBytes "&longitude=" = 38 :: (goBytes "longitude" ++ [61]) := by decide
  have e3 : goBytes "&current=temperature_2m" = 38 :: goBytes "current=temperature_2m" := by
    decide
  simp only [weatherURL, goBytes_append, e1, e2, e3, List.append_assoc, List.cons_append,
    List.nil_append]

/-- The query parameters of the URL of `WeatherApi` when both coordinates consist of plain
bytes. -/
theorem urlQuery_weatherURL (latitude longitude : String)
    (h1 : ∀ b ∈ goBytes latitude, plainByte b = true)
    (h2 : ∀ b ∈ goBytes longitude, plainByte b = true) :
    urlQuery (goBytes (weatherURL latitude longitude)) =
      some [(goBytes "latitude", goBytes latitude), (goBytes "longitude", goBytes longitude),
        (goBytes "current", goBytes "temperature_2m")] := by
  have hne1 : ∀ (c : Nat), plainByte c = false → c ∉ goBytes latitude := by
    intro c hc hm
    rw [h1 c hm] at hc
    cases hc
  have hne2 : ∀ (c : Nat), plainByte c = false → c ∉ goBytes longitude := by
    intro c hc hm
    rw [h2 c hm] at hc
    cases hc
  have hA38 : 38 ∉ goBytes "latitude" ++ 61 :: goBytes latitude := by
    simp only [List.mem_append, List.mem_cons, not_or]
    exact ⟨by decide, by decide, hne1 38 (by decide)⟩
  have hB38 : 38 ∉ goBytes "longitude" ++ 61 :: goBytes longitude := by
    simp only [List.mem_append, List.mem_cons, not_or]
    exact ⟨by decide, by decide, hne2 38 (by decide)⟩
  have hfrag : 35 ∉ goBytes (weatherURL latitude longitude) := by
    rw [weatherURL_bytes]
    simp only [List.mem_append, List.mem_cons, not_or]
    exact ⟨by decide, by decide, ⟨⟨by decide, by decide, hne1 35 (by decide)⟩, by decide,
      ⟨by decide, by decide, hne2 35 (by decide)⟩, by decide, by decide⟩⟩
  have hctl : (goBytes (weatherURL latitude longitude)).any isCTL = false := by
    rw [weatherURL_bytes]
    simp only [List.any_append, List.any_cons, Bool.or_eq_false_iff, List.any_eq_false]
    refine ⟨by decide, by decide, ⟨⟨by decide, by decide, ?_⟩, by decide,
      ⟨by decide, by decide, ?_⟩, by decide, by decide⟩⟩
    · intro b hb
      rw [(plainByte_spec b (h1 b hb)).1]
      exact Bool.false_ne_true
    · intro b hb
      rw [(plainByte_spec b (h2 b hb)).1]
      exact Bool.false_ne_true
  have pA : parsePiece (goBytes "latitude" ++ 61 :: goBytes latitude) =
      some (goBytes "latitude", goBytes latitude) := by
    have h59 : 59 ∉ goBytes "latitude" ++ 61 :: goBytes latitude := by
      simp only [List.mem_append, List.mem_cons, not_or]
      exact ⟨by decide, by decide, hne1 59 (by decide)⟩
    have hnil : goBytes "latitude" ++ 61 :: goBytes latitude ≠ [] := by simp
    have hk : queryUnescape ((goBytes "latitude" ++ 61 :: goBytes latitude).length + 1)
        (goBytes "latitude") = some (goBytes "latitude") :=
      queryUnescape_of_plain _ _ (by simp; omega) (by decide)
    have hv : queryUnescape ((goBytes "latitude" ++ 61 :: goBytes latitude).length + 1)
        (goBytes latitude) = some (goBytes latitude) :=
      queryUnescape_of_plain _ _ (by simp; omega)
        (fun b hb => ⟨(plainByte_spec b (h1 b hb)).2.2.1, (plainByte_spec b (h1 b hb)).2.2.2.2.1⟩)
    unfold parsePiece
    rw [if_neg h59, if_neg hnil, cutAt_append _ _ _ (by decide)]
    simp only [Option.getD_some, hk, hv]
  have pB : parsePiece (goBytes "longitude" ++ 61 :: goBytes longitude) =
      some (goBytes "longitude", goBytes longitude) := by
    have h59 : 59 ∉ goBytes "longitude" ++ 61 :: goBytes longitude := by
      simp only [List.mem_append, List.mem_cons, not_or]
      exact ⟨by decide, by decide, hne2 59 (by decide)⟩
    have hnil : goBytes "longitude" ++ 61 :: goBytes longitude ≠ [] := by simp
    have hk : queryUnescape ((goBytes "longitude" ++ 61 :: goBytes longitude).length + 1)
        (goBytes "longitude") = some (goBytes "longitude") :=
      queryUnescape_of_plain _ _ (by simp; omega) (by decide)
    have hv : queryUnescape ((goBytes "longitude" ++ 61 :: goBytes longitude).length + 1)
        (goBytes longitude) = some (goBytes longitude) :=
      queryUnescape_of_plain _ _ (by simp; omega)
        (fun b hb => ⟨(plainByte_spec b (h2 b hb)).2.2.1, (plainByte_spec b (h2 b hb)).2.2.2.2.1⟩)
    unfold parsePiece
    rw [if_neg h59, if_neg hnil, cutAt_append _ _ _ (by decide)]
    simp only [Option.getD_some, hk, hv]
  have pC : parsePiece (goBytes "current=temperature_2m") =
      some (goBytes "current", goBytes "temperature_2m") := by
    decide
  have hq : ∀ n, queryUnescape (n + 1) [] = some [] := fun _ => rfl
  unfold urlQuery
  rw [cutAt_of_not_mem _ _ hfrag]
  simp only [hctl, Bool.false_eq_true, if_false, Option.getD_none, hq, Option.isNone_some]
  rw [weatherURL_bytes, cutAt_append _ _ _ (by decide)]
  simp only [Option.getD_some, parseQuery, splitOn_append _ _ _ hA38,
    splitOn_append _ _ _ hB38, splitOn_of_not_mem 38 (goBytes "current=temperature_2m")
      (by decide), List.filterMap_cons, pA, pB, pC, List.filterMap_nil]

/-! ## The printed numbers read back as the values -/

/-- C1: for every postal code whose length (Go's `len`, the byte count) is not 8, the empty
code included, `HandlerCep` answers with status 422 and the body
`{"error":"Invalid zipcode"}` (followed by the newline `Encode` appends), and the run has no
event: neither the postal lookup client nor the weather client is called. -/
theorem HandlerCep_rejects_wrong_length (E : Env) (cep : String) (h : cep.utf8ByteSize ≠ 8) :
    (HandlerCep E NewRecorder cep).1.Code = 422 ∧
    (HandlerCep E NewRecorder cep).1.Body = "\x7b\"error\":\"Invalid zipcode\"\x7d\n" ∧
    (HandlerCep E NewRecorder cep).2 = [] := by
  rw [HandlerCep_of_wrong_length E cep h]
  exact ⟨rfl, rfl, rfl⟩

/-- Instance of C1 at the empty postal code. -/
theorem HandlerCep_rejects_wrong_length_witness :
    "".utf8ByteSize ≠ 8 ∧
    (HandlerCep sampleEnv NewRecorder "").1.Code = 422 ∧
    (HandlerCep sampleEnv NewRecorder "").1.Body = "\x7b\"error\":\"Invalid zipcode\"\x7d\n" ∧
    (HandlerCep sampleEnv NewRecorder "").2 = [] :=
  ⟨by decide, HandlerCep_rejects_wrong_length sampleEnv "" (by decide)⟩

/-- C7: for every postal code and every behaviour of the two upstream services, the status
code of the response of `HandlerCep` is 200, 404 or 422. -/
theorem HandlerCep_status_codes (E : Env) (cep : String) :
    (HandlerCep E NewRecorder cep).1.Code = 200 ∨ (HandlerCep E NewRecorder cep).1.Code = 404 ∨
      (HandlerCep E NewRecorder cep).1.Code = 422 := by
  by_cases h8 : cep.utf8ByteSize = 8
  · rcases result_cases (CepAwesomeapi E cep) with ⟨err, evs1, hc⟩ | ⟨rec, evs1, hc⟩
    · rw [HandlerCep_of_lookup_error E cep err evs1 h8 hc]
      exact Or.inr (Or.inl rfl)
    · rcases result_cases (WeatherApi E rec.Latitude rec.Longitude) with
        ⟨err, evs2, hw⟩ | ⟨weather, evs2, hw⟩
      · rw [HandlerCep_of_weather_error E cep err rec evs1 evs2 h8 hc hw]
        exact Or.inr (Or.inl rfl)
      · rw [HandlerCep_of_success E cep rec weather evs1 evs2 h8 hc hw]
        exact Or.inl (encodeTemperature_code _)
  · rw [HandlerCep_of_wrong_length E cep h8]
    exact Or.inr (Or.inr rfl)

/-- C5: for every postal code of length 8, when the postal lookup succeeds and `WeatherApi`
returns an error (whatever its cause), `HandlerCep` answers with status 404 and the body
`{"error":"Can not find weather"}` and nothing else is written, so no temperature payload. -/
theorem HandlerCep_weather_failure (E : Env) (cep err : String) (rec : CepAwesomeapiResponse)
    (evs1 evs2 : List Event) (h8 : cep.utf8ByteSize = 8)
    (hc : CepAwesomeapi E cep = (.ok rec, evs1))
    (hw : WeatherApi E rec.Latitude rec.Longitude = (.error err, evs2)) :
    (HandlerCep E NewRecorder cep).1.Code = 404 ∧
    (HandlerCep E NewRecorder cep).1.Body = "\x7b\"error\":\"Can not find weather\"\x7d\n" := by
  rw [HandlerCep_of_weather_error E cep err rec evs1 evs2 h8 hc hw]
  exact ⟨rfl, rfl⟩

/-- C9: two runs of `HandlerCep` that fail at the same stage answer alike, whatever the
upstream errors were: the response (status code and body) after a failed postal lookup does
not depend on the error, and neither does the response after a failed weather call. -/
theorem upstream_error_detail_hidden (E1 E2 : Env) (cep1 cep2 : String)
    (h1 : cep1.utf8ByteSize = 8) (h2 : cep2.utf8ByteSize = 8) :
    (∀ err1 err2 evs1 evs2, CepAwesomeapi E1 cep1 = (.error err1, evs1) →
      CepAwesomeapi E2 cep2 = (.error err2, evs2) →
      (HandlerCep E1 NewRecorder cep1).1 = (HandlerCep E2 NewRecorder cep2).1) ∧
    (∀ rec1 rec2 err1 err2 evs1 evs2 evs3 evs4, CepAwesomeapi E1 cep1 = (.ok rec1, evs1) →
      CepAwesomeapi E2 cep2 = (.ok rec2, evs2) →
      WeatherApi E1 rec1.Latitude rec1.Longitude = (.error err1, evs3) →
      WeatherApi E2 rec2.Latitude rec2.Longitude = (.error err2, evs4) →
      (HandlerCep E1 NewRecorder cep1).1 = (HandlerCep E2 NewRecorder cep2).1) := by
  constructor
  · intro err1 err2 evs1 evs2 hc1 hc2
    rw [HandlerCep_of_lookup_error E1 cep1 err1 evs1 h1 hc1,
      HandlerCep_of_lookup_error E2 cep2 err2 evs2 h2 hc2]
  · intro rec1 rec2 err1 err2 evs1 evs2 evs3 evs4 hc1 hc2 hw1 hw2
    rw [HandlerCep_of_weather_error E1 cep1 err1 rec1 evs1 evs3 h1 hc1 hw1,
      HandlerCep_of_weather_error E2 cep2 err2 rec2 evs2 evs4 h2 hc2 hw2]

/-- Instance of C9: a lookup that fails in the transport against one that fails in decoding, and
a weather call that fails in the transport against one that fails while the body is read. -/
theorem upstream_error_detail_hidden_witness :
    (CepAwesomeapi offlineEnv "01310100" =
        (.error "dial tcp: lookup failed: no such host", cepEvents "01310100") ∧
      CepAwesomeapi htmlEnv "01310100" =
        (.error "invalid character looking for beginning of value", cepEvents "01310100") ∧
      (HandlerCep offlineEnv NewRecorder "01310100").1 =
        (HandlerCep htmlEnv NewRecorder "01310100").1) ∧
    (WeatherApi weatherDownEnv "-23.5505" "-46.6333" =
        (.error "dial tcp: lookup failed: no such host", weatherEvents "-23.5505" "-46.6333") ∧
      WeatherApi weatherTruncatedEnv "-23.5505" "-46.6333" =
        (.error "unexpected EOF", weatherEvents "-23.5505" "-46.6333") ∧
      (HandlerCep weatherDownEnv NewRecorder "01310100").1 =
        (HandlerCep weatherTruncatedEnv NewRecorder "01310100").1) :=
  ⟨⟨by decide!, by decide!,
      (upstream_error_detail_hidden offlineEnv htmlEnv "01310100" "01310100" (by decide)
        (by decide)).1 "dial tcp: lookup failed: no such host"
        "invalid character looking for beginning of value" (cepEvents "01310100")
        (cepEvents "01310100") (by decide!) (by decide!)⟩,
    ⟨by decide!, by decide!,
      (upstream_error_detail_hidden weatherDownEnv weatherTruncatedEnv "01310100" "01310100"
        (by decide) (by decide)).2 paulistaRecord paulistaRecord
        "dial tcp: lookup failed: no such host" "unexpected EOF" (cepEvents "01310100")
        (cepEvents "01310100") (weatherEvents "-23.5505" "-46.6333")
        (weatherEvents "-23.5505" "-46.6333") (by decide!) (by decide!) (by decide!)
        (by decide!)⟩⟩

/-- Instance of C5: the weather answer breaks off while the body is read. -/
theorem HandlerCep_weather_failure_witness :
    "01310100".utf8ByteSize = 8 ∧
    CepAwesomeapi weatherTruncatedEnv "01310100" = (.ok paulistaRecord, cepEvents "01310100") ∧
    WeatherApi weatherTruncatedEnv paulistaRecord.Latitude paulistaRecord.Longitude =
      (.error "unexpected EOF", weatherEvents "-23.5505" "-46.6333") ∧
    (HandlerCep weatherTruncatedEnv NewRecorder "01310100").1.Code = 404 ∧
    (HandlerCep weatherTruncatedEnv NewRecorder "01310100").1.Body =
      "\x7b\"error\":\"Can not find weather\"\x7d\n" :=
  ⟨by decide, by decide!, by decide!,
    HandlerCep_weather_failure weatherTruncatedEnv "01310100" "unexpected EOF" paulistaRecord
      (cepEvents "01310100") (weatherEvents "-23.5505" "-46.6333") (by decide) (by decide!)
      (by decide!)⟩

/-- C4, at the failing input: the lookup service answers the request for `00000000` with
status 404 and a JSON object. `CepAwesomeapi` does not look at the status code and returns the
zero record without error, so `HandlerCep` goes on to call the weather client (with empty
coordinates) and answers 200 with a temperature, where the claim promises status 404, the
body `{"error":"Can not find zipcode"}` and no weather call. -/
theorem lookup_404_not_reported :
    notFoundEnv.clientDo (cepURL "00000000") =
      .ok { StatusCode := 404, Body := .ok notFoundBody } ∧
    HandlerCep notFoundEnv NewRecorder "00000000" =
      ({ wroteHeader := true, Code := 200,
         Body := "\x7b\"temp_C\":0,\"temp_F\":32,\"temp_K\":273.15\x7d\n" },
        [.callCepAwesomeapi "00000000", .newRequest (cepURL "00000000"),
          .clientDo (cepURL "00000000"), .callWeatherApi "" "", .newRequest (weatherURL "" ""),
          .clientDo (weatherURL "" "")]) := by
  refine ⟨by decide!, ?_⟩
  rw [HandlerCep_of_success notFoundEnv "00000000" CepAwesomeapiResponse.zero
    WeatherApiResponse.zero (cepEvents "00000000") (weatherEvents "" "") (by decide)
    (by decide!) (by decide!), zero_temperature, buildTemperature_zero, encodeTemperature_zero]
  rfl

/-- C6, at the failing input: the weather service reports `1e308`, a finite float64.
The Fahrenheit value `1e308*1.8 + 32` overflows to `+Inf`, `Encode` fails on it and writes
nothing, and the error is dropped: the response has status 200 and an empty body, which is not
a JSON document. -/
theorem overflow_response_not_json :
    WeatherApi overflowEnv paulistaRecord.Latitude paulistaRecord.Longitude =
      (.ok (weatherRecord (Float64.ofDecimal false 1 308)),
        weatherEvents "-23.5505" "-46.6333") ∧
    (Float64.ofDecimal false 1 308).isFinite = true ∧
    (HandlerCep overflowEnv NewRecorder "01310100").1 =
      { wroteHeader := false, Code := 200, Body := "" } ∧
    validJSON (HandlerCep overflowEnv NewRecorder "01310100").1.Body = false := by
  have h : (HandlerCep overflowEnv NewRecorder "01310100").1 =
      { wroteHeader := false, Code := 200, Body := "" } := by
    rw [HandlerCep_of_success overflowEnv "01310100" paulistaRecord
      (weatherRecord (Float64.ofDecimal false 1 308)) (cepEvents "01310100")
      (weatherEvents "-23.5505" "-46.6333") (by decide) (by decide!) (by decide!),
      weatherRecord_temperature, buildTemperature_1e308, encodeTemperature_of_infinite_TempF]
    rfl
  refine ⟨by decide!, by decide!, h, ?_⟩
  rw [h]
  decide

/-- C2, as stated, fails at absolute zero: the Fahrenheit value computed for `-273.15` is not
the float64 `-459.67` but its neighbour `-459.66999999999996`, one unit in the last place
away, with or without a fused multiply-add. -/
theorem absolute_zero_fahrenheit_inexact :
    (buildTemperature false (Float64.ofDecimal true 27315 (-2))).TempF
      = .finite true 8086600159036702 (-44) ∧
    (buildTemperature true (Float64.ofDecimal true 27315 (-2))).TempF
      = .finite true 8086600159036702 (-44) ∧
    Float64.ofDecimal true 45967 (-2) = .finite true 8086600159036703 (-44) ∧
    (buildTemperature false (Float64.ofDecimal true 27315 (-2))).TempF
      ≠ Float64.ofDecimal true 45967 (-2) ∧
    (buildTemperature true (Float64.ofDecimal true 27315 (-2))).TempF
      ≠ Float64.ofDecimal true 45967 (-2) := by
  rw [listed_constants.2.2.2.2.2.2.1]
  decide!

/-- C2, amended: on the success path `HandlerCep` encodes a `Temperature` with `TempC = c`,
`TempF = c*1.8 + 32` and `TempK = c + 273.15` in float64 arithmetic, `c` being the Celsius
value of the weather record; for `c` in `-273.15, 0, 25, 100, -10` the Fahrenheit values are
`-459.66999999999996, 32, 77, 212, 14` and the Kelvin values `0, 273.15, 298.15, 373.15,
263.15`, and the first Fahrenheit value is within `0.01` of `-459.67`. -/
theorem temperature_conversion (E : Env) (cep : String) (rec : CepAwesomeapiResponse)
    (weather : WeatherApiResponse) (evs1 evs2 : List Event) (h8 : cep.utf8ByteSize = 8)
    (hc : CepAwesomeapi E cep = (.ok rec, evs1))
    (hw : WeatherApi E rec.Latitude rec.Longitude = (.ok weather, evs2)) :
    (∃ T : Temperature, (HandlerCep E NewRecorder cep).1 = NewRecorder.encodeTemperature T ∧
      T.TempC = weather.Current.Temperature2M ∧
      T.TempF = Float64.mulAdd E.fusedMulAdd weather.Current.Temperature2M
        (Float64.ofDecimal false 18 (-1)) (Float64.ofDecimal false 32 0) ∧
      T.TempK = Float64.add weather.Current.Temperature2M (Float64.ofDecimal false 27315 (-2))) ∧
    (∀ fused : Bool,
      buildTemperature fused (Float64.ofDecimal true 27315 (-2)) =
        { TempC := Float64.ofDecimal true 27315 (-2),
          TempF := Float64.ofDecimal true 45966999999999996 (-14),
          TempK := Float64.ofDecimal false 0 0 } ∧
      buildTemperature fused (Float64.ofDecimal false 0 0) =
        { TempC := Float64.ofDecimal false 0 0, TempF := Float64.ofDecimal false 32 0,
          TempK := Float64.ofDecimal false 27315 (-2) } ∧
      buildTemperature fused (Float64.ofDecimal false 25 0) =
        { TempC := Float64.ofDecimal false 25 0, TempF := Float64.ofDecimal false 77 0,
          TempK := Float64.ofDecimal false 29815 (-2) } ∧
      buildTemperature fused (Float64.ofDecimal false 100 0) =
        { TempC := Float64.ofDecimal false 100 0, TempF := Float64.ofDecimal false 212 0,
          TempK := Float64.ofDecimal false 37315 (-2) } ∧
      buildTemperature fused (Float64.ofDecimal true 10 0) =
        { TempC := Float64.ofDecimal true 10 0, TempF := Float64.ofDecimal false 14 0,
          TempK := Float64.ofDecimal false 26315 (-2) }) ∧
    |(Float64.ofDecimal true 45966999999999996 (-14)).toRat - (-45967 / 100)| ≤ 1 / 100 := by
  refine ⟨⟨buildTemperature E.fusedMulAdd weather.Current.Temperature2M, ?_, rfl, rfl, rfl⟩,
    listed_conversions, absolute_zero_within_tolerance⟩
  rw [HandlerCep_of_success E cep rec weather evs1 evs2 h8 hc hw]

/-- Instance of C2, amended: the run of `TestHandlerCep_Success`. -/
theorem temperature_conversion_witness :
    "01310100".utf8ByteSize = 8 ∧
    CepAwesomeapi sampleEnv "01310100" = (.ok paulistaRecord, cepEvents "01310100") ∧
    WeatherApi sampleEnv "-23.5505" "-46.6333" =
      (.ok (weatherRecord (Float64.ofDecimal false 255 (-1))),
        weatherEvents "-23.5505" "-46.6333") ∧
    ∃ T : Temperature, (HandlerCep sampleEnv NewRecorder "01310100").1 =
        NewRecorder.encodeTemperature T ∧
      T.TempC = (weatherRecord (Float64.ofDecimal false 255 (-1))).Current.Temperature2M ∧
      T.TempF = Float64.mulAdd sampleEnv.fusedMulAdd
        (weatherRecord (Float64.ofDecimal false 255 (-1))).Current.Temperature2M
        (Float64.ofDecimal false 18 (-1)) (Float64.ofDecimal false 32 0) ∧
      T.TempK = Float64.add
        (weatherRecord (Float64.ofDecimal false 255 (-1))).Current.Temperature2M
        (Float64.ofDecimal false 27315 (-2)) :=
  ⟨by decide, by decide!, by decide!,
    (temperature_conversion sampleEnv "01310100" paulistaRecord
      (weatherRecord (Float64.ofDecimal false 255 (-1))) (cepEvents "01310100")
      (weatherEvents "-23.5505" "-46.6333") (by decide) (by decide!) (by decide!)).1⟩

/-- C8, as stated, fails for a code of eight characters that are not all ASCII: `1234567é`
has eight characters and nine bytes, and `HandlerCep` rejects it with 422 without any lookup. -/
theorem eight_characters_rejected :
    "1234567é".length = 8 ∧ "1234567é".utf8ByteSize = 9 ∧
    HandlerCep sampleEnv NewRecorder "1234567é" =
      ({ wroteHeader := true, Code := 422, Body := "\x7b\"error\":\"Invalid zipcode\"\x7d\n" },
        []) :=
  ⟨by decide, by decide, HandlerCep_of_wrong_length sampleEnv "1234567é" (by decide)⟩

/-- C8, amended: validation is by byte length only. `HandlerCep` answers 422 if and only if
the UTF-8 encoding of the code is not exactly 8 bytes long (Go's `len`; the empty code
included); for every code of exactly 8 bytes, numeric or not, the first step of the run is the
postal lookup; and a code of 8 ASCII characters is 8 bytes long. -/
theorem validation_by_byte_length (E : Env) (cep : String) :
    ((HandlerCep E NewRecorder cep).1.Code = 422 ↔ cep.utf8ByteSize ≠ 8) ∧
    (cep.utf8ByteSize = 8 →
      (HandlerCep E NewRecorder cep).2.head? = some (.callCepAwesomeapi cep)) ∧
    ((∀ c ∈ cep.toList, c.toNat < 128) → cep.length = 8 → cep.utf8ByteSize = 8) := by
  refine ⟨⟨?_, fun h => (by rw [HandlerCep_of_wrong_length E cep h])⟩, ?_, ?_⟩
  · intro h422 h8
    rcases result_cases (CepAwesomeapi E cep) with ⟨err, evs1, hc⟩ | ⟨rec, evs1, hc⟩
    · rw [HandlerCep_of_lookup_error E cep err evs1 h8 hc] at h422
      exact absurd (show (404 : Nat) = 422 from h422) (by decide)
    · rcases result_cases (WeatherApi E rec.Latitude rec.Longitude) with
        ⟨err, evs2, hw⟩ | ⟨weather, evs2, hw⟩
      · rw [HandlerCep_of_weather_error E cep err rec evs1 evs2 h8 hc hw] at h422
        exact absurd (show (404 : Nat) = 422 from h422) (by decide)
      · rw [HandlerCep_of_success E cep rec weather evs1 evs2 h8 hc hw,
          encodeTemperature_code] at h422
        exact absurd (show (200 : Nat) = 422 from h422) (by decide)
  · intro h8
    rcases result_cases (CepAwesomeapi E cep) with ⟨err, evs1, hc⟩ | ⟨rec, evs1, hc⟩
    · rw [HandlerCep_of_lookup_error E cep err evs1 h8 hc]
      rfl
    · rcases result_cases (WeatherApi E rec.Latitude rec.Longitude) with
        ⟨err, evs2, hw⟩ | ⟨weather, evs2, hw⟩
      · rw [HandlerCep_of_weather_error E cep err rec evs1 evs2 h8 hc hw]
        rfl
      · rw [HandlerCep_of_success E cep rec weather evs1 evs2 h8 hc hw]
        rfl
  · intro hascii hlen
    rw [utf8ByteSize_of_ascii cep hascii, hlen]

/-- Instance of C8, amended: a code of eight letters. -/
theorem validation_by_byte_length_witness :
    ((HandlerCep offlineEnv NewRecorder "ABCDEFGH").1.Code = 422 ↔
      "ABCDEFGH".utf8ByteSize ≠ 8) ∧
    "ABCDEFGH".utf8ByteSize = 8 ∧
    (HandlerCep offlineEnv NewRecorder "ABCDEFGH").2.head? =
      some (.callCepAwesomeapi "ABCDEFGH") :=
  have h := validation_by_byte_length offlineEnv "ABCDEFGH"
  ⟨h.1, by decide, h.2.1 (by decide)⟩

/-- C10, as stated, fails for coordinates that contain a byte with a meaning in a URL. With
the latitude `-23.5505&latitude=0` the URL carries four parameters, two of them named
`latitude`; with `1# 2` the rest of the string is the fragment and one parameter is left; with
`1;2` the latitude parameter is dropped; with `1+2` and `%41` its value is `1 2` and `A`; and
with a line feed in the latitude the string is no URL at all. -/
theorem query_parameters_altered :
    urlQuery (goBytes (weatherURL "-23.5505&latitude=0" "-46.6333")) =
      some [(goBytes "latitude", goBytes "-23.5505"), (goBytes "latitude", goBytes "0"),
        (goBytes "longitude", goBytes "-46.6333"),
        (goBytes "current", goBytes "temperature_2m")] ∧
    urlQuery (goBytes (weatherURL "-23.5505&latitude=0" "-46.6333")) ≠
      some [(goBytes "latitude", goBytes "-23.5505&latitude=0"),
        (goBytes "longitude", goBytes "-46.6333"),
        (goBytes "current", goBytes "temperature_2m")] ∧
    urlQuery (goBytes (weatherURL "1# 2" "3")) = some [(goBytes "latitude", goBytes "1")] ∧
    urlQuery (goBytes (weatherURL "1;2" "3")) =
      some [(goBytes "longitude", goBytes "3"),
        (goBytes "current", goBytes "temperature_2m")] ∧
    urlQuery (goBytes (weatherURL "1+2" "3")) =
      some [(goBytes "latitude", goBytes "1 2"), (goBytes "longitude", goBytes "3"),
        (goBytes "current", goBytes "temperature_2m")] ∧
    urlQuery (goBytes (weatherURL "%41" "3")) =
      some [(goBytes "latitude", goBytes "A"), (goBytes "longitude", goBytes "3"),
        (goBytes "current", goBytes "temperature_2m")] ∧
    urlQuery (goBytes (weatherURL "1\n" "3")) = none := by
  refine ⟨by decide!, by decide!, by decide!, by decide!, by decide!, by decide!, by decide!⟩

/-- C10, amended: for every postal record returned by a successful lookup, `HandlerCep` calls
`WeatherApi` exactly once, with the `lat` and `lng` strings of the record unmodified; the URL
string `WeatherApi` builds and hands to `http.NewRequest` is exactly
`"https://api.open-meteo.com/v1/forecast?latitude=" ++ lat ++ "&longitude=" ++ lng ++
"&current=temperature_2m"`; and when `lat` and `lng` contain no control character and none of
`#`, `%`, `&`, `+`, `;`, this string parses as a URL that carries exactly the three query
parameters `latitude = lat`, `longitude = lng` and `current = temperature_2m`. -/
theorem weather_request (E : Env) (cep : String) (rec : CepAwesomeapiResponse)
    (evs1 : List Event) (h8 : cep.utf8ByteSize = 8)
    (hc : CepAwesomeapi E cep = (.ok rec, evs1)) :
    (HandlerCep E NewRecorder cep).2.filter Event.isWeatherCall =
      [.callWeatherApi rec.Latitude rec.Longitude] ∧
    (∀ lat lng : String,
      (WeatherApi E lat lng).2.head? =
        some (.newRequest ("https://api.open-meteo.com/v1/forecast?latitude=" ++ lat ++
          "&longitude=" ++ lng ++ "&current=temperature_2m")) ∧
      ((∀ b ∈ goBytes lat, plainByte b = true) → (∀ b ∈ goBytes lng, plainByte b = true) →
        urlQuery (goBytes ("https://api.open-meteo.com/v1/forecast?latitude=" ++ lat ++
          "&longitude=" ++ lng ++ "&current=temperature_2m")) =
          some [(goBytes "latitude", goBytes lat), (goBytes "longitude", goBytes lng),
            (goBytes "current", goBytes "temperature_2m")])) := by
  constructor
  · have hev : evs1.filter Event.isWeatherCall = [] := by
      have := CepAwesomeapi_no_weather_call E cep
      rwa [hc] at this
    rcases result_cases (WeatherApi E rec.Latitude rec.Longitude) with
      ⟨err, evs2, hw⟩ | ⟨weather, evs2, hw⟩
    · have hev2 : evs2.filter Event.isWeatherCall = [] := by
        have := WeatherApi_no_weather_call E rec.Latitude rec.Longitude
        rwa [hw] at this
      rw [HandlerCep_of_weather_error E cep err rec evs1 evs2 h8 hc hw]
      simp [List.filter_cons, List.filter_append, hev, hev2, Event.isWeatherCall]
    · have hev2 : evs2.filter Event.isWeatherCall = [] := by
        have := WeatherApi_no_weather_call E rec.Latitude rec.Longitude
        rwa [hw] at this
      rw [HandlerCep_of_success E cep rec weather evs1 evs2 h8 hc hw]
      simp [List.filter_cons, List.filter_append, hev, hev2, Event.isWeatherCall]
  · intro lat lng
    refine ⟨?_, fun h1 h2 => urlQuery_weatherURL lat lng h1 h2⟩
    rcases WeatherApi_events E lat lng with h | h <;> rw [h] <;> rfl

/-- Instance of C10, amended: the run of `TestHandlerCep_Success`. -/
theorem weather_request_witness :
    "01310100".utf8ByteSize = 8 ∧
    CepAwesomeapi sampleEnv "01310100" = (.ok paulistaRecord, cepEvents "01310100") ∧
    (HandlerCep sampleEnv NewRecorder "01310100").2.filter Event.isWeatherCall =
      [.callWeatherApi "-23.5505" "-46.6333"] ∧
    (∀ b ∈ goBytes "-23.5505", plainByte b = true) ∧
    (∀ b ∈ goBytes "-46.6333", plainByte b = true) ∧
    urlQuery (goBytes ("https://api.open-meteo.com/v1/forecast?latitude=" ++ "-23.5505" ++
        "&longitude=" ++ "-46.6333" ++ "&current=temperature_2m")) =
      some [(goBytes "latitude", goBytes "-23.5505"), (goBytes "longitude", goBytes "-46.6333"),
        (goBytes "current", goBytes "temperature_2m")] :=
  have h := weather_request sampleEnv "01310100" paulistaRecord (cepEvents "01310100")
    (by decide) (by decide!)
  ⟨by decide, by decide!, h.1, by decide, by decide,
    (h.2 "-23.5505" "-46.6333").2 (by decide) (by decide)⟩

end Lab01
